import Mathlib

/-!
Verification of the storefront application in `src/app.py`.

The application is a small Flask web store: a product catalog seeded into a
relational store, a session-held shopping cart (a mapping from product-id
strings to integer quantities), and a checkout operation that inserts one
order row and clears the cart.

Shallow embedding conventions:
  * the sqlite database is a record of table contents (`DB`), with a flag
    for existence of the backing file (`DB_PATH.exists()`);
  * the Flask session is a record holding the optional `cart` value; a
    stored value that is not a dict is the `SessVal.nonDict` constructor,
    matching the `isinstance(cart, dict)` check in `get_cart`;
  * a Python dict of type `dict[str, int]` is an association list with
    unique keys; dict update keeps the position of an existing key and
    appends a fresh key at the end (insertion order), and `dict.pop`
    deletes the key (on a key-unique list, `List.filter` on the key);
  * Python `int(s)` on a string, which raises `ValueError` on a
    non-numeric string, is the option-valued parser `pyInt?` (modelled for
    optionally-signed plain decimal strings; the exotic accepted forms
    such as embedded underscores are not needed by any claim);
  * a handler that raises an uncaught exception is an `Except.error`,
    surfaced as the `Resp.serverError` response.
-/

namespace App

/-- A row of the `products` table, as the dataclass `Product` in app.py. -/
structure Product where
  id : Int
  name : String
  description : String
  price : Int
  image_url : String
deriving DecidableEq

/-- A row of the `orders` table: `id` is autoincrement, so the model keeps
only the `created_at` column and the row position. -/
structure Order where
  created_at : String
deriving DecidableEq

/-- A row of the `order_items` table (declared in `init_db`, never
inserted by any code path). -/
structure OrderItem where
  order_id : Int
  product_id : Int
  quantity : Int
deriving DecidableEq

/-- The sqlite database: the backing-file existence flag checked by
`ensure_database`, and the contents of the three tables. -/
structure DB where
  dbExists : Bool
  products : List Product
  orders : List Order
  order_items : List OrderItem
deriving DecidableEq

/-- The state before anything touched the store: no `store.db` file. -/
def freshDB : DB := ⟨false, [], [], []⟩

/-- The three demo products inserted by `init_db` when the `products`
table is empty (autoincrement assigns ids 1, 2, 3). -/
def seedProducts : List Product :=
  [ ⟨1, "هدست بی‌سیم", "کیفیت صدای شفاف با عمر باتری ۲۰ ساعته", 1450000,
      "https://images.unsplash.com/photo-1518441988334-5d2fede6e7e4?auto=format&fit=crop&w=600&q=80"⟩,
    ⟨2, "لپ‌تاپ سبک", "مناسب برای کارهای روزمره و سفر", 24800000,
      "https://images.unsplash.com/photo-1517336714731-489689fd1ca8?auto=format&fit=crop&w=600&q=80"⟩,
    ⟨3, "ساعت هوشمند", "ردیابی فعالیت‌های ورزشی و اعلان‌ها", 3950000,
      "https://images.unsplash.com/photo-1511707171634-5f897ff02aa9?auto=format&fit=crop&w=600&q=80"⟩ ]

/-- app.py `init_db`: opening the connection creates the backing file;
`CREATE TABLE IF NOT EXISTS` leaves table contents untouched; the three
demo products are inserted only when `SELECT COUNT(*) FROM products`
returns 0. -/
def init_db (db : DB) : DB :=
  let db1 : DB := { db with dbExists := true }
  if db1.products.length = 0 then { db1 with products := seedProducts } else db1

/-- app.py `ensure_database` (the `before_request` hook): run `init_db`
only when the `store.db` file does not exist. -/
def ensure_database (db : DB) : DB :=
  if db.dbExists then db else init_db db

/-- app.py `fetch_products`: all rows of `products` in storage order. -/
def fetch_products (db : DB) : List Product :=
  db.products

/-- app.py `fetch_product`: `SELECT * FROM products WHERE id = ?`, `None`
when no row matches. -/
def fetch_product (db : DB) (product_id : Int) : Option Product :=
  db.products.find? (fun p => p.id == product_id)

/-- A value stored under the session key `cart`: either an actual dict
(of type `dict[str, int]`) or some other, malformed value. -/
inductive SessVal where
  | sdict (c : List (String × Int))
  | nonDict
deriving DecidableEq

/-- The Flask session: the model keeps only the `cart` key; `none` means
the key is absent. -/
structure Session where
  cart : Option SessVal
deriving DecidableEq

/-- The cart mapping: dict from product-id string to integer quantity,
as an insertion-ordered association list with unique keys. -/
abbrev Cart : Type := List (String × Int)

/-- app.py `get_cart`: `session.get("cart")`, normalized to `{}` whenever
the stored value is not a dict (missing key included). -/
def get_cart (s : Session) : Cart :=
  match s.cart with
  | some (SessVal.sdict c) => c
  | _ => ([] : List (String × Int))

/-- app.py `save_cart`: `session["cart"] = cart`. -/
def save_cart (c : Cart) (s : Session) : Session :=
  { s with cart := some (SessVal.sdict c) }

/-- Python `product_id in cart` on a dict. -/
def dictHasKey (k : String) (c : Cart) : Bool :=
  List.any c (fun e => e.1 == k)

/-- Python `cart.get(product_id, 0)` on a dict. -/
def dictGet (k : String) (c : Cart) : Option Int :=
  (List.find? (fun e => e.1 == k) c).map (fun e => e.2)

/-- Python `cart[k] = v` on a dict: overwrite in place when the key is
present (insertion order kept), append otherwise. -/
def dictSet (k : String) (v : Int) (c : Cart) : Cart :=
  if dictHasKey k c then
    List.map (fun e => if e.1 == k then (k, v) else e) c
  else
    c ++ [(k, v)]

/-- Python `cart.pop(k)` on a key-unique dict: delete the entry. -/
def dictPop (k : String) (c : Cart) : Cart :=
  List.filter (fun e => !(e.1 == k)) c

/-- The cart mutation performed by the `add_to_cart` handler:
`cart[product_id] = cart.get(product_id, 0) + 1`. -/
def add_op (product_id : String) (c : Cart) : Cart :=
  dictSet product_id ((dictGet product_id c).getD 0 + 1) c

/-- The cart mutation performed by the `remove_from_cart` handler:
`if product_id in cart: cart.pop(product_id)`. -/
def remove_op (product_id : String) (c : Cart) : Cart :=
  if dictHasKey product_id c then dictPop product_id c else c

/-- Python `int(s)` on a string: optionally signed decimal digits parse
to their value, anything else raises `ValueError` (here: `none`). -/
def pyInt? (s : String) : Option Int :=
  match s.data with
  | [] => none
  | '-' :: cs =>
      if !cs.isEmpty && cs.all Char.isDigit then
        some (-(decimalNat cs : Int))
      else none
  | '+' :: cs =>
      if !cs.isEmpty && cs.all Char.isDigit then
        some ((decimalNat cs : Int))
      else none
  | cs =>
      if cs.all Char.isDigit then some ((decimalNat cs : Int)) else none
where
  /-- Value of a list of decimal digits. -/
  decimalNat (cs : List Char) : Nat :=
    cs.foldl (fun n c => n * 10 + (c.toNat - '0'.toNat)) 0

/-- One rendered line of the cart page: the dict appended per iteration
in `view_cart`. -/
structure CartItem where
  product : Product
  quantity : Int
  item_total : Int
deriving DecidableEq

/-- The loop of app.py `view_cart`: iterate the cart in insertion order;
`int(product_id)` may raise; an unresolved id is skipped; a resolved one
contributes `price * quantity` to the total and one item to the list. -/
def cartLoop (db : DB) : List (String × Int) → Except String (List CartItem × Int)
  | [] => Except.ok ([], 0)
  | (k, q) :: rest =>
    match pyInt? k with
    | none => Except.error "ValueError"
    | some pid =>
      match fetch_product db pid with
      | none => cartLoop db rest
      | some p =>
        match cartLoop db rest with
        | Except.error e => Except.error e
        | Except.ok (items, total) =>
            Except.ok (⟨p, q, p.price * q⟩ :: items, p.price * q + total)

/-- The HTTP response of a handler. -/
inductive Resp where
  | redirectIndex
  | redirectCart
  | html (template : String)
  | notFound
  | serverError
deriving DecidableEq

/-- The badge count of the catalog page: `sum(cart.values())`. -/
def cart_size (c : Cart) : Int :=
  (List.map (fun e => e.2) c).sum

/-- app.py `index`: render the catalog together with the badge count. -/
def index (s : Session) (db : DB) : List Product × Int :=
  (fetch_products db, cart_size (get_cart s))

/-- app.py `product_detail`: 404 when the id does not resolve. -/
def product_detail (product_id : Int) (db : DB) : Resp :=
  match fetch_product db product_id with
  | none => Resp.notFound
  | some _ => Resp.html "product.html"

/-- app.py `view_cart` as a handler result: the rendered items and total,
or the uncaught `ValueError`. -/
def view_cart (s : Session) (db : DB) : Except String (List CartItem × Int) :=
  cartLoop db (get_cart s)

/-- app.py `add_to_cart`: `request.form.get("product_id")` is `none` when
the field is absent; a missing or empty (falsy) value redirects to the
catalog; otherwise increment the entry and redirect to the cart page. -/
def add_to_cart (form_product_id : Option String) (s : Session) : Resp × Session :=
  match form_product_id with
  | none => (Resp.redirectIndex, s)
  | some pid =>
    if pid = "" then (Resp.redirectIndex, s)
    else (Resp.redirectCart, save_cart (add_op pid (get_cart s)) s)

/-- app.py `remove_from_cart`: a missing or empty (falsy) field value
redirects straight to the cart page; otherwise pop the key if present,
save, and redirect to the cart page. -/
def remove_from_cart (form_product_id : Option String) (s : Session) : Resp × Session :=
  match form_product_id with
  | none => (Resp.redirectCart, s)
  | some pid =>
    if pid = "" then (Resp.redirectCart, s)
    else (Resp.redirectCart, save_cart (remove_op pid (get_cart s)) s)

/-- app.py `checkout`: an empty (falsy) cart redirects to the catalog
with no store write; otherwise insert exactly one `orders` row stamped
with the store-local current time, pop the cart from the session and
render the confirmation page. -/
def checkout (now : String) (s : Session) (db : DB) : Resp × Session × DB :=
  let cart := get_cart s
  if cart.isEmpty then (Resp.redirectIndex, s, db)
  else
    (Resp.html "checkout.html",
     { s with cart := none },
     { db with orders := db.orders ++ [⟨now⟩] })

/-- An incoming HTTP request on the app's surface. -/
inductive Req where
  | getIndex
  | getProduct (product_id : Int)
  | getCart
  | postCartAdd (form_product_id : Option String)
  | postCartRemove (form_product_id : Option String)
  | postCheckout
deriving DecidableEq

/-- One full request cycle: the `before_request` hook `ensure_database`
followed by the matched handler; returns the response and the new session
and database states. -/
def handleRequest (req : Req) (now : String) (s : Session) (db : DB) :
    Resp × Session × DB :=
  let db1 := ensure_database db
  match req with
  | Req.getIndex => (Resp.html "index.html", s, db1)
  | Req.getProduct pid => (product_detail pid db1, s, db1)
  | Req.getCart =>
      match view_cart s db1 with
      | Except.error _ => (Resp.serverError, s, db1)
      | Except.ok _ => (Resp.html "cart.html", s, db1)
  | Req.postCartAdd form =>
      let r := add_to_cart form s
      (r.1, r.2, db1)
  | Req.postCartRemove form =>
      let r := remove_from_cart form s
      (r.1, r.2, db1)
  | Req.postCheckout => checkout now s db1

/-- Spec-side rendered cart list, following the spec's wording: the cart
entries whose product id resolves in the catalog, each rendered with its
quantity and line total; non-resolving entries are excluded. -/
def specRenderedItems (db : DB) (cart : List (String × Int)) : List CartItem :=
  cart.filterMap (fun e =>
    ((pyInt? e.1).bind (fetch_product db)).map (fun p => ⟨p, e.2, p.price * e.2⟩))

/-- Spec-side cart total, following the spec's wording: the sum of unit
price times quantity over the entries whose product id resolves. -/
def specCartTotal (db : DB) (cart : List (String × Int)) : Int :=
  ((specRenderedItems db cart).map (fun i => i.item_total)).sum

/-- A database seeded by a first initialization of the fresh store. -/
def db0 : DB := init_db freshDB

/-- A concrete session holding the cart mapping product id "1" to 2. -/
def sess1 : Session := ⟨some (SessVal.sdict [("1", 2)])⟩

/-- A concrete session whose cart holds only the stale product id "99",
absent from the seeded catalog. -/
def sessStale : Session := ⟨some (SessVal.sdict [("99", 2)])⟩

/-! ### Helper lemmas about the dict operations -/

lemma find?_map_overwrite (k : String) (v : Int) :
    ∀ c : Cart, dictHasKey k c = true →
      List.find? (fun e => e.1 == k)
        (List.map (fun e => if e.1 == k then (k, v) else e) c) = some (k, v)
  | [], h => by simp [dictHasKey] at h
  | a :: t, h => by
    by_cases ha : (a.1 == k) = true
    · simp only [List.map_cons, ha, if_true]
      exact List.find?_cons_of_pos _ (by simp)
    · have ht : dictHasKey k t = true := by
        simp only [dictHasKey, List.any_cons, ha, Bool.false_or] at h
        exact h
      have hfa : (a.1 == k) = false := by revert ha; cases (a.1 == k) <;> simp
      simp only [List.map_cons]
      rw [if_neg ha]
      rw [show List.find? (fun e => e.1 == k)
            (a :: List.map (fun e => if e.1 == k then (k, v) else e) t)
          = List.find? (fun e => e.1 == k)
            (List.map (fun e => if e.1 == k then (k, v) else e) t) from by
        simp [List.find?_cons, hfa]]
      exact find?_map_overwrite k v t ht

lemma find?_append_fresh (k : String) (v : Int) :
    ∀ c : Cart, dictHasKey k c = false →
      List.find? (fun e => e.1 == k) (c ++ [(k, v)]) = some (k, v)
  | [], _ => by simp
  | a :: t, h => by
    have ha : (a.1 == k) = false := by
      simp only [dictHasKey, List.any_cons, Bool.or_eq_false_iff] at h
      exact h.1
    have ht : dictHasKey k t = false := by
      simp only [dictHasKey, List.any_cons, Bool.or_eq_false_iff] at h
      exact h.2
    rw [List.cons_append, List.find?_cons_of_neg _ (by simp [ha])]
    exact find?_append_fresh k v t ht

lemma dictGet_dictSet_self (k : String) (v : Int) (c : Cart) :
    dictGet k (dictSet k v c) = some v := by
  unfold dictSet
  by_cases h : dictHasKey k c = true
  · rw [if_pos h]
    unfold dictGet
    rw [find?_map_overwrite k v c h]
    rfl
  · rw [if_neg h]
    unfold dictGet
    rw [find?_append_fresh k v c (by revert h; cases dictHasKey k c <;> simp)]
    rfl

lemma dictHasKey_filter_self (k : String) (c : Cart) :
    dictHasKey k (List.filter (fun e => !(e.1 == k)) c) = false := by
  unfold dictHasKey
  rw [Bool.eq_false_iff]
  intro h
  rcases List.any_eq_true.mp h with ⟨e, he, hk⟩
  rcases List.mem_filter.mp he with ⟨_, hne⟩
  simp [hk] at hne

lemma dictGet_eq_none_of_hasKey_false (k : String) (c : Cart)
    (h : dictHasKey k c = false) : dictGet k c = none := by
  unfold dictGet
  rw [List.find?_eq_none.mpr]
  · rfl
  · intro e he hk
    have hkey : dictHasKey k c = true := List.any_eq_true.mpr ⟨e, he, hk⟩
    rw [hkey] at h
    simp at h

lemma dictHasKey_eq_false_of_get_none (k : String) (c : Cart)
    (h : dictGet k c = none) : dictHasKey k c = false := by
  unfold dictGet at h
  have hf : List.find? (fun e => e.1 == k) c = none := by
    cases hf : List.find? (fun e => e.1 == k) c with
    | none => rfl
    | some e => rw [hf] at h; simp at h
  rw [Bool.eq_false_iff]
  intro hk
  rcases List.any_eq_true.mp hk with ⟨e, he, hek⟩
  exact (List.find?_eq_none.mp hf e he) hek

lemma dictGet_remove_op (k : String) (c : Cart) :
    dictGet k (remove_op k c) = none := by
  unfold remove_op
  by_cases h : dictHasKey k c = true
  · rw [if_pos h]
    exact dictGet_eq_none_of_hasKey_false k _ (dictHasKey_filter_self k c)
  · rw [if_neg h]
    exact dictGet_eq_none_of_hasKey_false k c (by revert h; cases dictHasKey k c <;> simp)

lemma checkout_db_of_nonempty (now : String) (s : Session) (db : DB)
    (h : get_cart s ≠ []) :
    (checkout now s db).2.2 = { db with orders := db.orders ++ [⟨now⟩] } := by
  obtain ⟨cv⟩ := s
  cases cv with
  | none => exact absurd rfl h
  | some v =>
    cases v with
    | nonDict => exact absurd rfl h
    | sdict c =>
      cases c with
      | nil => exact absurd rfl h
      | cons a t => rfl

lemma ensure_database_order_items (db : DB) :
    (ensure_database db).order_items = db.order_items := by
  by_cases h : db.dbExists = true
  · simp [ensure_database, h]
  · by_cases h2 : db.products.length = 0 <;>
      simp [ensure_database, h, init_db, h2]

lemma checkout_order_items (now : String) (s : Session) (db : DB) :
    (checkout now s db).2.2.order_items = db.order_items := by
  by_cases h : get_cart s = []
  · simp [checkout, h]
  · rw [checkout_db_of_nonempty now s db h]

lemma cart_size_nonneg (c : List (String × Int)) (h : ∀ e ∈ c, 1 ≤ e.2) :
    0 ≤ cart_size c := by
  induction c with
  | nil => simp [cart_size]
  | cons a t ih =>
    have ha := h a (by simp)
    have ht := ih (fun e he => h e (by simp [he]))
    simp only [cart_size, List.map_cons, List.sum_cons] at *
    omega

lemma cartLoop_stale (db : DB) :
    ∀ c : List (String × Int),
      (∀ e ∈ c, (pyInt? e.1).isSome ∧ (pyInt? e.1).bind (fetch_product db) = none) →
      cartLoop db c = Except.ok ([], 0)
  | [], _ => rfl
  | (k, q) :: t, h => by
    obtain ⟨hk, hb⟩ := h (k, q) (by simp)
    obtain ⟨pid, hpid⟩ := Option.isSome_iff_exists.mp hk
    have hfp : fetch_product db pid = none := by
      rw [hpid] at hb
      exact hb
    have ht := cartLoop_stale db t (fun e he => h e (by simp [he]))
    simp [cartLoop, hpid, hfp, ht]

/-! ### Claim theorems -/

/-- C1: for every non-empty cart, `checkout` inserts exactly one row into
the `orders` table (the previous rows followed by the single new row), the
`cart` key is removed from the session, and a subsequent `get_cart` on the
resulting session returns the empty mapping. -/
theorem checkout_nonempty_creates_order (now : String) (s : Session) (db : DB)
    (h : get_cart s ≠ []) :
    (checkout now s db).2.2.orders = db.orders ++ [⟨now⟩] ∧
    (checkout now s db).2.1.cart = none ∧
    get_cart (checkout now s db).2.1 = [] := by
  obtain ⟨cv⟩ := s
  cases cv with
  | none => exact absurd rfl h
  | some v =>
    cases v with
    | nonDict => exact absurd rfl h
    | sdict c =>
      cases c with
      | nil => exact absurd rfl h
      | cons a t => exact ⟨rfl, rfl, rfl⟩

/-- Witness for C1 at a concrete non-empty cart. -/
theorem checkout_nonempty_creates_order_witness :
    get_cart sess1 ≠ [] ∧
    (checkout "2024-01-01 00:00:00" sess1 freshDB).2.2.orders
      = freshDB.orders ++ [⟨"2024-01-01 00:00:00"⟩] :=
  ⟨by decide,
   (checkout_nonempty_creates_order "2024-01-01 00:00:00" sess1 freshDB (by decide)).1⟩

/-- C2: for every empty cart, `checkout` performs no store insert, leaves
the session untouched and responds with the redirect to the catalog. -/
theorem checkout_empty_no_insert (now : String) (s : Session) (db : DB)
    (h : get_cart s = []) :
    checkout now s db = (Resp.redirectIndex, s, db) := by
  simp [checkout, h]

/-- Witness for C2 at a session with no stored cart. -/
theorem checkout_empty_no_insert_witness :
    get_cart ⟨none⟩ = [] ∧
    checkout "2024-01-01 00:00:00" ⟨none⟩ freshDB
      = (Resp.redirectIndex, ⟨none⟩, freshDB) :=
  ⟨rfl, checkout_empty_no_insert "2024-01-01 00:00:00" ⟨none⟩ freshDB rfl⟩

/-- C4: adding the same product id twice yields a quantity two greater
than before (2 from an absent entry, since `getD 0` supplies 0); removing
a product id leaves it entirely absent (full removal, not a decrement);
removing an absent id is a no-op on the cart. -/
theorem cart_add_twice_remove_semantics (c : Cart) (p : String) :
    dictGet p (add_op p (add_op p c)) = some ((dictGet p c).getD 0 + 2) ∧
    dictGet p (remove_op p c) = none ∧
    (dictGet p c = none → remove_op p c = c) := by
  refine ⟨?_, dictGet_remove_op p c, ?_⟩
  · have h1 : dictGet p (add_op p c) = some ((dictGet p c).getD 0 + 1) :=
      dictGet_dictSet_self _ _ _
    have h2 : dictGet p (add_op p (add_op p c))
        = some ((dictGet p (add_op p c)).getD 0 + 1) :=
      dictGet_dictSet_self _ _ _
    rw [h2, h1]
    simp only [Option.getD_some, Option.some.injEq]
    omega
  · intro h
    have hk := dictHasKey_eq_false_of_get_none p c h
    simp [remove_op, hk]

/-- Witness for C4's no-op hypothesis at a cart not containing the key. -/
theorem cart_add_twice_remove_semantics_witness :
    dictGet "1" ([("2", 1)] : Cart) = none ∧
    remove_op "1" ([("2", 1)] : Cart) = [("2", 1)] :=
  ⟨by decide, (cart_add_twice_remove_semantics [("2", 1)] "1").2.2 (by decide)⟩

/-- C6: `get_cart` returns the empty mapping when the stored cart value
is missing or not a dict, and returns the stored mapping unchanged when
it is one; being a total function of the session, it never raises. -/
theorem get_cart_defensive_normalization :
    get_cart ⟨none⟩ = [] ∧
    get_cart ⟨some SessVal.nonDict⟩ = [] ∧
    ∀ c : Cart, get_cart ⟨some (SessVal.sdict c)⟩ = c :=
  ⟨rfl, rfl, fun _ => rfl⟩

/-- C3: storage initialization is idempotent with respect to seed data:
`init_db` is idempotent on every database state, a first run on the fresh
state leaves exactly the three seed rows in `products`, and any number of
further runs leaves them unchanged and unduplicated. -/
theorem init_db_seed_idempotent :
    (∀ db : DB, init_db (init_db db) = init_db db) ∧
    (init_db freshDB).products = seedProducts ∧
    seedProducts.length = 3 ∧
    ∀ n : Nat, (init_db^[n] (init_db freshDB)).products = seedProducts := by
  have hidem : ∀ db : DB, init_db (init_db db) = init_db db := by
    intro db
    by_cases h : db.products.length = 0
    · simp [init_db, h, seedProducts]
    · simp [init_db, h]
  have hseed : (init_db freshDB).products = seedProducts := rfl
  have hfix : ∀ n : Nat, init_db^[n] (init_db freshDB) = init_db freshDB := by
    intro n
    induction n with
    | zero => rfl
    | succ m ih => rw [Function.iterate_succ_apply', ih, hidem]
  exact ⟨hidem, hseed, rfl, fun n => by rw [hfix n]; exact hseed⟩

/-- C7 counterexample: a POST to /cart/add carrying the form field
`product_id` with the empty-string value (a falsy value in Python) is
redirected to the catalog page, not to the cart page. -/
theorem add_to_cart_empty_field_redirects_index :
    add_to_cart (some "") ⟨none⟩ = (Resp.redirectIndex, ⟨none⟩) ∧
    (add_to_cart (some "") ⟨none⟩).1 ≠ Resp.redirectCart :=
  ⟨rfl, by decide⟩

/-- C7 amended: every POST to /cart/add carrying a non-empty `product_id`
form value increments that entry and redirects to the cart page; a
missing or empty value redirects to the catalog instead. -/
theorem add_to_cart_nonempty_redirects_cart (p : String) (s : Session)
    (h : p ≠ "") :
    add_to_cart (some p) s
      = (Resp.redirectCart, save_cart (add_op p (get_cart s)) s) := by
  simp [add_to_cart, h]

/-- Witness for the amended C7 at a concrete non-empty field value. -/
theorem add_to_cart_nonempty_redirects_cart_witness :
    ("1" : String) ≠ "" ∧
    add_to_cart (some "1") ⟨none⟩
      = (Resp.redirectCart, save_cart (add_op "1" (get_cart ⟨none⟩)) ⟨none⟩) :=
  ⟨by decide, add_to_cart_nonempty_redirects_cart "1" ⟨none⟩ (by decide)⟩

/-- C10: the cart removal operation is idempotent: removing the same
product id twice yields the same cart as removing it once. -/
theorem remove_op_idempotent (c : Cart) (p : String) :
    remove_op p (remove_op p c) = remove_op p c := by
  by_cases h : dictHasKey p c = true
  · have h2 := dictHasKey_filter_self p c
    simp [remove_op, dictPop, h, h2]
  · have h' : dictHasKey p c = false := by revert h; cases dictHasKey p c <;> simp
    simp [remove_op, h']

/-- C5 counterexample: a cart entry whose product-id key is not an
integer literal makes the cart view raise `ValueError` (from
`int(product_id)`), so no total is computed at all for that cart; the
entry is not silently excluded. -/
theorem view_cart_nonint_key_raises :
    view_cart ⟨some (SessVal.sdict [("x", 1)])⟩ db0 = Except.error "ValueError" := rfl

/-- C5 amended: for every cart all of whose product-id keys parse as
integers, the cart view succeeds and its total equals the sum of unit
price times quantity over the entries whose product id resolves in the
catalog, with non-resolving entries contributing zero and excluded from
the rendered list; a cart holding a non-integer key instead makes the
view raise `ValueError`. -/
theorem view_cart_total_resolved (s : Session) (db : DB)
    (h : ∀ e ∈ get_cart s, (pyInt? e.1).isSome) :
    view_cart s db
      = Except.ok (specRenderedItems db (get_cart s), specCartTotal db (get_cart s)) := by
  unfold view_cart
  revert h
  generalize get_cart s = c
  intro h
  induction c with
  | nil => rfl
  | cons e t ih =>
    obtain ⟨k, q⟩ := e
    have hk : (pyInt? k).isSome := h (k, q) (by simp)
    obtain ⟨pid, hpid⟩ := Option.isSome_iff_exists.mp hk
    have ht : ∀ e ∈ t, (pyInt? e.1).isSome := fun e he => h e (by simp [he])
    have iht := ih ht
    cases hfp : fetch_product db pid with
    | none =>
      simp [cartLoop, hpid, hfp, iht, specRenderedItems, specCartTotal]
    | some p =>
      simp [cartLoop, hpid, hfp, iht, specRenderedItems, specCartTotal]

/-- Witness for the amended C5 at the seeded catalog and the cart
mapping product id "1" to quantity 2. -/
theorem view_cart_total_resolved_witness :
    (∀ e ∈ get_cart sess1, (pyInt? e.1).isSome) ∧
    view_cart sess1 db0
      = Except.ok (specRenderedItems db0 (get_cart sess1), specCartTotal db0 (get_cart sess1)) :=
  ⟨by decide, view_cart_total_resolved sess1 db0 (by decide)⟩

/-- C8: no request handler ever inserts a row into the `order_items`
table, and the store effect of a non-empty checkout is the same whatever
the cart's contents: the inserted order row depends only on the current
time and the prior database. -/
theorem no_order_items_and_order_independent_of_cart :
    (∀ (req : Req) (now : String) (s : Session) (db : DB),
      (handleRequest req now s db).2.2.order_items = db.order_items) ∧
    (∀ (now : String) (s1 s2 : Session) (db : DB),
      get_cart s1 ≠ [] → get_cart s2 ≠ [] →
      (checkout now s1 db).2.2 = (checkout now s2 db).2.2) := by
  constructor
  · intro req now s db
    cases req with
    | getIndex => exact ensure_database_order_items db
    | getProduct pid => exact ensure_database_order_items db
    | getCart =>
      simp only [handleRequest]
      rcases hv : view_cart s (ensure_database db) with e | v <;>
        simp [hv] <;> exact ensure_database_order_items db
    | postCartAdd form => exact ensure_database_order_items db
    | postCartRemove form => exact ensure_database_order_items db
    | postCheckout =>
      simp only [handleRequest]
      rw [checkout_order_items]
      exact ensure_database_order_items db
  · intro now s1 s2 db h1 h2
    rw [checkout_db_of_nonempty now s1 db h1, checkout_db_of_nonempty now s2 db h2]

/-- Witness for C8 at a concrete request and two distinct non-empty carts. -/
theorem no_order_items_and_order_independent_of_cart_witness :
    (handleRequest Req.postCheckout "2024-01-01 00:00:00" sess1 freshDB).2.2.order_items
      = freshDB.order_items ∧
    (checkout "2024-01-01 00:00:00" sess1 db0).2.2
      = (checkout "2024-01-01 00:00:00" sessStale db0).2.2 :=
  ⟨no_order_items_and_order_independent_of_cart.1
      Req.postCheckout "2024-01-01 00:00:00" sess1 freshDB,
   no_order_items_and_order_independent_of_cart.2
      "2024-01-01 00:00:00" sess1 sessStale db0 (by decide) (by decide)⟩

/-- C9: the catalog badge count is the sum of quantities over all cart
entries, stale ones included; hence a non-empty cart holding only stale
(parsable but unresolved) product ids shows a positive badge while the
cart view renders zero items and a zero total. -/
theorem badge_counts_stale_entries (s : Session) (db : DB) :
    (index s db).2 = cart_size (get_cart s) ∧
    (get_cart s ≠ [] →
     (∀ e ∈ get_cart s, 1 ≤ e.2 ∧ (pyInt? e.1).isSome ∧
        (pyInt? e.1).bind (fetch_product db) = none) →
     0 < (index s db).2 ∧ view_cart s db = Except.ok ([], 0)) := by
  refine ⟨rfl, fun hne h => ⟨?_, ?_⟩⟩
  · cases hc : get_cart s with
    | nil => exact absurd hc hne
    | cons a t =>
      rw [hc] at h
      show 0 < cart_size (get_cart s)
      rw [hc]
      have ha := (h a (by simp)).1
      have ht : ∀ e ∈ t, 1 ≤ e.2 := fun e he => (h e (by simp [he])).1
      have htn := cart_size_nonneg t ht
      simp only [cart_size, List.map_cons, List.sum_cons] at *
      omega
  · exact cartLoop_stale db (get_cart s) (fun e he => (h e he).2)

/-- Witness for C9 at the seeded catalog and a cart holding only the
stale product id "99". -/
theorem badge_counts_stale_entries_witness :
    get_cart sessStale ≠ [] ∧
    0 < (index sessStale db0).2 ∧
    view_cart sessStale db0 = Except.ok ([], 0) :=
  ⟨by decide,
   (badge_counts_stale_entries sessStale db0).2 (by decide) (by decide)⟩

end App
